import Mathlib

/-!
Shallow embedding of the haystack evaluation harness
(`src/haystack/evaluation/eval.py`) and of the docx converter
(`src/haystack/components/converters/docx.py`), together with theorems
settling the specification claims about them.

Modelling conventions:
* Python floats are modelled as rationals (`ℚ`); all scores produced by the
  embedded code are exact rationals.
* Fallible Python code (functions that `raise`) is modelled with
  `Except String`.
* External collaborators that are not part of this repository fragment
  (the `preprocess_text` normalizer, `get_answers_from_output` extraction,
  the sentence-transformers models, `python-docx` parsing, byte-stream
  reading) are modelled as explicit function parameters: the embedded
  functions are quantified over every possible behaviour of those
  collaborators.
-/

set_option autoImplicit false

namespace Haystack

/-- A value stored in a `MetricsResult` mapping: either a numeric score,
the explicit "not computed" sentinel (Python `None`), or a per-sample
score list (used by SAS). -/
inductive MetricValue where
  | num : ℚ → MetricValue
  | notComputed : MetricValue
  | scoreList : List ℚ → MetricValue
  deriving DecidableEq, Repr

/-- `MetricsResult`: a mapping from metric name to value, embedded as an
association list (`haystack/evaluation/metrics.py` wraps a plain dict). -/
def MetricsResult := List (String × MetricValue)
  deriving DecidableEq, Repr

/-- The `Metric` enum from `haystack/evaluation/metrics.py`. -/
inductive Metric where
  | RECALL | MRR | MAP | F1 | EM | SAS
  deriving DecidableEq, Repr

/-- `np.mean` over a list of rationals: sum divided by length
(`0 / 0 = 0` in `ℚ`, so the empty list yields `0`; the embedded code never
takes a mean of an empty list). -/
def mean (l : List ℚ) : ℚ := l.sum / l.length

/-- Python `str.split()` with no argument: split on runs of whitespace,
discarding empty tokens (used at `eval.py` lines 138-139). -/
def whitespaceTokenize (s : String) : List String :=
  (s.split (fun c => c.isWhitespace)).filter (fun t => t ≠ "")

/-- `sum((Counter(label_toks) & Counter(pred_toks)).values())` from
`_compute_f1_single` (`eval.py` lines 86-87): the Python `Counter`
intersection keeps each token with the minimum of its multiplicities, so
the total count is the cardinality of the multiset intersection. -/
def numSame (label_toks pred_toks : List String) : ℕ :=
  ((label_toks : Multiset String) ∩ (pred_toks : Multiset String)).card

/-- `EvaluationResult._compute_f1_single` (`eval.py` lines 82-96),
translated clause by clause from the source. -/
def computeF1Single (label_toks pred_toks : List String) : ℚ :=
  let num_same := numSame label_toks pred_toks
  if label_toks.length = 0 ∨ pred_toks.length = 0 then
    -- If either is no-answer, then F1 is 1 if they agree, 0 otherwise
    if label_toks = pred_toks then 1 else 0
  else if num_same = 0 then 0
  else
    let p : ℚ := (num_same : ℚ) / (pred_toks.length : ℚ)
    let r : ℚ := (num_same : ℚ) / (label_toks.length : ℚ)
    (2 * p * r) / (p + r)

/-- The per-sample F1 score as the specification words it: "if either the
whitespace-tokenized prediction or label is empty, the score is 1 if both
token lists are equal (both empty) and 0 otherwise; else if the
multiset-intersection token count num_same is 0, the score is 0; else the
score is 2*precision*recall/(precision+recall) with
precision = num_same/len(pred_tokens) and
recall = num_same/len(label_tokens)". Written from the spec's words, to be
compared with `computeF1Single`, which is written from the source. -/
def computeF1SingleSpec (label_toks pred_toks : List String) : ℚ :=
  if pred_toks = [] ∨ label_toks = [] then
    if pred_toks = label_toks then 1 else 0
  else if numSame label_toks pred_toks = 0 then 0
  else
    let p : ℚ := (numSame label_toks pred_toks : ℚ) / (pred_toks.length : ℚ)
    let r : ℚ := (numSame label_toks pred_toks : ℚ) / (label_toks.length : ℚ)
    2 * p * r / (p + r)

/-- The `ValueError` message raised by `_calculate_f1`, `_calculate_em`
and `_calculate_sas` on a length mismatch. -/
def lengthMismatchMsg : String :=
  "The number of predictions and labels must be the same."

/-- `EvaluationResult._calculate_recall` (`eval.py` lines 73-74): the
declared-but-unimplemented stub, returning the `None` sentinel. -/
def calculateRecall : MetricsResult := [("recall", MetricValue.notComputed)]

/-- `EvaluationResult._calculate_map` (`eval.py` lines 76-77). -/
def calculateMap : MetricsResult :=
  [("mean_average_precision", MetricValue.notComputed)]

/-- `EvaluationResult._calculate_mrr` (`eval.py` lines 79-80). -/
def calculateMrr : MetricsResult :=
  [("mean_reciprocal_rank", MetricValue.notComputed)]

/-- `EvaluationResult._calculate_f1` (`eval.py` lines 98-148), starting
from the already-extracted answer strings (`get_answers_from_output` lives
outside this fragment). `norm` is the per-string action of
`preprocess_text`, which maps its normalization over the list. -/
def calculateF1 (norm : String → String) (predictions labels : List String) :
    Except String MetricsResult :=
  if predictions.length ≠ labels.length then .error lengthMismatchMsg
  else if predictions.length = 0 then
    -- Return F1 as 0 for no inputs
    .ok [("f1", MetricValue.num 0)]
  else
    let preds := predictions.map norm
    let labs := labels.map norm
    -- Tokenize by splitting on spaces
    let tokenized_predictions := preds.map whitespaceTokenize
    let tokenized_labels := labs.map whitespaceTokenize
    let f1_scores := (tokenized_labels.zip tokenized_predictions).map
      (fun lp => computeF1Single lp.1 lp.2)
    .ok [("f1", MetricValue.num (mean f1_scores))]

/-- `EvaluationResult._calculate_em` (`eval.py` lines 150-193), starting
from the already-extracted answer strings. The numpy elementwise equality
of two equal-length string arrays followed by `np.mean` is the mean of
per-sample 0/1 indicators. -/
def calculateEM (norm : String → String) (predictions labels : List String) :
    Except String MetricsResult :=
  if predictions.length ≠ labels.length then .error lengthMismatchMsg
  else if predictions.length = 0 then
    -- Return Exact Match as 0 for no inputs
    .ok [("exact_match", MetricValue.num 0)]
  else
    let preds := predictions.map norm
    let labs := labels.map norm
    let score_list := (preds.zip labs).map
      (fun pl => if pl.1 = pl.2 then (1 : ℚ) else 0)
    .ok [("exact_match", MetricValue.num (mean score_list))]

/-- The external similarity model used by `_calculate_sas`, modelled as an
oracle: whether the loaded configuration declares a
`ForSequenceClassification` architecture (`eval.py` lines 250-253), the
raw cross-encoder pair scores (`similarity_model.predict`), the
bi-encoder diagonal cosine similarity (`util.cos_sim(...)[i][i]`), and
the logistic squashing function `expit`. -/
structure SasModel where
  crossEncoder : Bool
  scorePairs : List (String × String) → List ℚ
  embedSim : String → String → ℚ
  expit : ℚ → ℚ

/-- The cross-encoder score normalization of `_calculate_sas`
(`eval.py` lines 271-274): `if (similarity_scores > 1).any():
similarity_scores = expit(similarity_scores)`. -/
def normalizeCrossEncoderScores (expit : ℚ → ℚ) (raw : List ℚ) : List ℚ :=
  if raw.any (fun s => 1 < s) then raw.map expit else raw

/-- `EvaluationResult._calculate_sas` (`eval.py` lines 195-294), starting
from the already-extracted answer strings, with the external model behind
the `SasModel` oracle. -/
def calculateSAS (norm : String → String) (sm : SasModel)
    (predictions labels : List String) : Except String MetricsResult :=
  if predictions.length ≠ labels.length then .error lengthMismatchMsg
  else if predictions.length = 0 then
    -- Return SAS as 0 for no inputs
    .ok [("sas", MetricValue.num 0), ("scores", MetricValue.scoreList [0])]
  else
    let preds := predictions.map norm
    let labs := labels.map norm
    let similarity_scores :=
      if sm.crossEncoder then
        let sentence_pairs := preds.zip labs
        normalizeCrossEncoderScores sm.expit (sm.scorePairs sentence_pairs)
      else
        (preds.zip labs).map (fun pl => sm.embedSim pl.1 pl.2)
    .ok [("sas", MetricValue.num (mean similarity_scores)),
         ("scores", MetricValue.scoreList similarity_scores)]

/-- `EvaluationResult.calculate_metrics` restricted to the built-in
`Metric` enum: the `_supported_metrics` dispatch table of
`eval.py` lines 51-58 (the custom-callable escape hatch is outside the
claims). -/
def calculateMetrics (m : Metric) (norm : String → String) (sm : SasModel)
    (predictions labels : List String) : Except String MetricsResult :=
  match m with
  | .RECALL => .ok calculateRecall
  | .MRR => .ok calculateMrr
  | .MAP => .ok calculateMap
  | .F1 => calculateF1 norm predictions labels
  | .EM => calculateEM norm predictions labels
  | .SAS => calculateSAS norm sm predictions labels

/-- The data carried by an `EvaluationResult` as built by `eval`
(`eval.py` lines 31-41); the runnable itself is kept by the Python object
but plays no further role in the claims. -/
structure EvalRecord (α β γ : Type) where
  inputs : List α
  outputs : List β
  expectedOutputs : List γ
  deriving Repr

/-- The `ValueError` message raised by `eval` on a shape mismatch
(the Python message interpolates both lengths; the constant prefix is kept
here). -/
def shapeMismatchMsg : String :=
  "The number of inputs does not match the number of expected outputs."

/-- The `eval` entry point (`eval.py` lines 297-327): validate the shape,
then run the runnable on each input in order, collecting outputs. The
runnable is modelled as a function `run : α → β`; the sequential loop
`for input_ in inputs: outputs.append(runnable.run(input_))` is the map
of `run` over `inputs`. -/
def eval {α β γ : Type} (run : α → β) (inputs : List α)
    (expected_outputs : List γ) : Except String (EvalRecord α β γ) :=
  -- Check that expected outputs has the correct shape
  if inputs.length ≠ expected_outputs.length then .error shapeMismatchMsg
  else .ok { inputs := inputs, outputs := inputs.map run,
             expectedOutputs := expected_outputs }

/-! ## Embedding of `src/haystack/components/converters/docx.py` -/

/-- A metadata / core-property value. Python-docx core properties can be
strings, integers (`revision`) or datetimes (`created`, ...); the check
`value != ""` at `docx.py` line 131 is only ever true of the string
`""`. Datetimes are abstracted to their timestamp. -/
inductive PropValue where
  | str : String → PropValue
  | intVal : Int → PropValue
  | date : Int → PropValue
  deriving DecidableEq, Repr

/-- Python `value == ""`: only a string value can equal the empty
string. -/
def PropValue.isEmptyStr : PropValue → Bool
  | .str s => s = ""
  | _ => false

/-- A Python dict of metadata, embedded as an association list in which
the FIRST binding of a key is its value. -/
abbrev MetaDict := List (String × PropValue)

/-- Lookup in a `MetaDict`: first binding wins. -/
def lookupKey (k : String) : MetaDict → Option PropValue
  | [] => none
  | (k', v) :: rest => if k' = k then some v else lookupKey k rest

/-- Python dict merge `{**a, **b}`: keys of `b` override keys of `a`.
With first-binding-wins lookup this is `b ++ a`. -/
def dictMerge (a b : MetaDict) : MetaDict := b ++ a

/-- A `ByteStream` (`haystack/dataclasses`): raw data (abstracted to a
type parameter) plus carried metadata. -/
structure ByteStream (δ : Type) where
  data : δ
  meta : MetaDict

/-- The part of a parsed `python-docx` document object that `run` and
`_get_docx_metadata` read: the paragraph texts and the `core_properties`
attribute, modelled as a partial map from property name to value
(`none` covers both a missing attribute — the `hasattr` guard at
`docx.py` line 129 — and an attribute whose value is Python `None`). -/
structure DocxFile where
  paragraphs : List String
  coreProperties : String → Option PropValue

/-- The fields of a haystack `Document` that the converter populates. -/
structure Document where
  content : String
  meta : MetaDict

/-- The fixed fifteen-field property list of `_get_docx_metadata`
(`docx.py` lines 111-127). -/
def docxProps : List String :=
  ["author", "category", "comments", "content_status", "created",
   "identifier", "keywords", "language", "last_modified_by",
   "last_printed", "modified", "revision", "subject", "title", "version"]

/-- One iteration of the `for prop in props` loop of `_get_docx_metadata`
(`docx.py` lines 128-132): keep the property when its value exists and is
neither `None` nor `""`, keyed with the `docx_` prefix. -/
def metaEntry (cp : String → Option PropValue) (p : String) :
    Option (String × PropValue) :=
  match cp p with
  | none => none
  | some v => if v.isEmptyStr then none else some ("docx_" ++ p, v)

/-- `DocxToDocument._get_docx_metadata` (`docx.py` lines 98-133). -/
def getDocxMetadata (cp : String → Option PropValue) : MetaDict :=
  docxProps.filterMap (metaEntry cp)

/-- The merged metadata `{**bytestream.meta, **docx_meta, **metadata}` of
`docx.py` line 92: caller metadata over docx core properties over
byte-stream metadata. -/
def mergedMetadata {δ : Type} (bytestream : ByteStream δ) (file : DocxFile)
    (metadata : MetaDict) : MetaDict :=
  dictMerge (dictMerge bytestream.meta (getDocxMetadata file.coreProperties))
    metadata

/-- Building the `Document` for one successfully converted source
(`docx.py` lines 81-93): newline-joined paragraph text and the merged
metadata. -/
def mkDocument {δ : Type} (bytestream : ByteStream δ) (file : DocxFile)
    (metadata : MetaDict) : Document :=
  { content := String.intercalate "\n" file.paragraphs,
    meta := mergedMetadata bytestream file metadata }

/-- Modelled from the spec: `normalize_metadata`
(`haystack/components/converters/utils.py`, not part of this fragment).
The spec says: "If a `meta` list is supplied it must be exactly as long
as `sources`; a single dictionary applies uniformly to all sources";
absent metadata yields empty dicts. -/
def normalizeMetadata (meta : Option (MetaDict ⊕ List MetaDict))
    (sources_count : ℕ) : Except String (List MetaDict) :=
  match meta with
  | none => .ok (List.replicate sources_count [])
  | some (.inl d) => .ok (List.replicate sources_count d)
  | some (.inr l) =>
    if l.length = sources_count then .ok l
    else .error "The length of the metadata list must match the number of sources."

/-- The per-source body of the `for source, metadata in zip(...)` loop of
`DocxToDocument.run` (`docx.py` lines 73-94): `none` when the source is
skipped (read failure or parse failure), `some` document otherwise.
`readSource` models `get_bytestream_from_source`, `parse` models
`docx.Document(io.BytesIO(bytestream.data))`. -/
def convertSource {σ δ : Type} (readSource : σ → Except String (ByteStream δ))
    (parse : δ → Except String DocxFile) (sm : σ × MetaDict) :
    Option Document :=
  match readSource sm.1 with
  | .error _ => none
  | .ok bytestream =>
    match parse bytestream.data with
    | .error _ => none
    | .ok file => some (mkDocument bytestream file sm.2)

/-- The loop of `DocxToDocument.run` (`docx.py` lines 73-94), written as
the source writes it: iterate the zipped pairs, `continue` on a read or
parse failure, append one document per success. -/
def runLoop {σ δ : Type} (readSource : σ → Except String (ByteStream δ))
    (parse : δ → Except String DocxFile) :
    List (σ × MetaDict) → List Document
  | [] => []
  | (source, metadata) :: rest =>
    match readSource source with
    | .error _ => runLoop readSource parse rest
    | .ok bytestream =>
      match parse bytestream.data with
      | .error _ => runLoop readSource parse rest
      | .ok file =>
        mkDocument bytestream file metadata :: runLoop readSource parse rest

/-- `DocxToDocument.run` (`docx.py` lines 49-96): normalize the metadata
argument, then convert each source, skipping failed ones. -/
def DocxToDocument.run {σ δ : Type}
    (readSource : σ → Except String (ByteStream δ))
    (parse : δ → Except String DocxFile) (sources : List σ)
    (meta : Option (MetaDict ⊕ List MetaDict)) :
    Except String (List Document) :=
  match normalizeMetadata meta sources.length with
  | .error e => .error e
  | .ok meta_list => .ok (runLoop readSource parse (sources.zip meta_list))

/-! ## Helper lemmas -/

theorem mean_nonneg (l : List ℚ) (h : ∀ x ∈ l, 0 ≤ x) : 0 ≤ mean l :=
  div_nonneg (List.sum_nonneg h) (Nat.cast_nonneg _)

theorem mean_le_one (l : List ℚ) (hne : l ≠ []) (h : ∀ x ∈ l, x ≤ 1) :
    mean l ≤ 1 := by
  have hlen : (0 : ℚ) < l.length := by exact_mod_cast List.length_pos.2 hne
  rw [mean, div_le_one hlen]
  calc l.sum ≤ l.length • (1 : ℚ) := List.sum_le_card_nsmul l 1 h
    _ = l.length := by simp

theorem numSame_le_label (label_toks pred_toks : List String) :
    numSame label_toks pred_toks ≤ label_toks.length := by
  simpa [numSame] using Multiset.card_le_card
    (Multiset.inter_le_left (label_toks : Multiset String) (pred_toks : Multiset String))

theorem numSame_le_pred (label_toks pred_toks : List String) :
    numSame label_toks pred_toks ≤ pred_toks.length := by
  simpa [numSame] using Multiset.card_le_card
    (Multiset.inter_le_right (label_toks : Multiset String) (pred_toks : Multiset String))

theorem computeF1Single_mem_unit (label_toks pred_toks : List String) :
    0 ≤ computeF1Single label_toks pred_toks ∧
      computeF1Single label_toks pred_toks ≤ 1 := by
  rw [computeF1Single]
  by_cases h0 : label_toks.length = 0 ∨ pred_toks.length = 0
  · simp only [h0, if_true]
    split <;> norm_num
  · simp only [h0, if_false]
    by_cases hn : numSame label_toks pred_toks = 0
    · simp [hn]
    · simp only [hn, if_false]
      push_neg at h0
      obtain ⟨hl, hp⟩ := h0
      have hL : (0 : ℚ) < label_toks.length := by
        exact_mod_cast Nat.pos_of_ne_zero hl
      have hP : (0 : ℚ) < pred_toks.length := by
        exact_mod_cast Nat.pos_of_ne_zero hp
      have hn' : (0 : ℚ) < (numSame label_toks pred_toks : ℚ) := by
        exact_mod_cast Nat.pos_of_ne_zero hn
      have hp1 : (numSame label_toks pred_toks : ℚ) / pred_toks.length ≤ 1 := by
        rw [div_le_one hP]
        exact_mod_cast numSame_le_pred label_toks pred_toks
      have hr1 : (numSame label_toks pred_toks : ℚ) / label_toks.length ≤ 1 := by
        rw [div_le_one hL]
        exact_mod_cast numSame_le_label label_toks pred_toks
      have hp0 : 0 < (numSame label_toks pred_toks : ℚ) / pred_toks.length :=
        div_pos hn' hP
      have hr0 : 0 < (numSame label_toks pred_toks : ℚ) / label_toks.length :=
        div_pos hn' hL
      constructor
      · positivity
      · rw [div_le_one (by positivity)]
        nlinarith [mul_nonneg hp0.le (sub_nonneg.2 hr1),
          mul_nonneg hr0.le (sub_nonneg.2 hp1)]

theorem computeF1Single_eq_spec (label_toks pred_toks : List String) :
    computeF1Single label_toks pred_toks =
      computeF1SingleSpec label_toks pred_toks := by
  by_cases hl : label_toks = [] <;> by_cases hp : pred_toks = [] <;>
    simp [computeF1Single, computeF1SingleSpec, hl, hp,
      List.length_eq_zero, eq_comm]

theorem sum_indicator_eq_countP (l : List (String × String)) :
    (l.map fun pl => if pl.1 = pl.2 then (1 : ℚ) else 0).sum =
      ((l.countP fun pl => pl.1 = pl.2 : ℕ) : ℚ) := by
  induction l with
  | nil => simp
  | cons a t ih =>
    by_cases h : a.1 = a.2 <;>
      simp [List.countP_cons, h, ih, add_comm]

/-! ## Claim theorems -/

/-- C1: for every sample the per-sample F1 score is computed exactly as
the specification describes it (empty-token-list rule, `num_same = 0`
rule, harmonic mean of precision and recall), and the aggregate F1 of
`_calculate_f1` is the arithmetic mean of the per-sample scores. -/
theorem f1_per_sample_and_mean :
    (∀ label_toks pred_toks : List String,
      computeF1Single label_toks pred_toks =
        computeF1SingleSpec label_toks pred_toks) ∧
    (∀ (norm : String → String) (predictions labels : List String),
      predictions.length = labels.length → predictions ≠ [] →
      calculateF1 norm predictions labels =
        .ok [("f1", MetricValue.num (mean
          ((((labels.map norm).map whitespaceTokenize).zip
              ((predictions.map norm).map whitespaceTokenize)).map
            (fun lp => computeF1SingleSpec lp.1 lp.2))))]) := by
  refine ⟨computeF1Single_eq_spec, ?_⟩
  intro norm predictions labels hlen hne
  have hne0 : ¬predictions.length = 0 := fun h =>
    hne (List.length_eq_zero.1 h)
  rw [calculateF1, if_neg (fun h => h hlen), if_neg hne0]
  simp only [computeF1Single_eq_spec]

/-- Witness for C1 at `predictions = ["a b"]`, `labels = ["a"]`,
identity normalization. -/
theorem f1_per_sample_and_mean_witness :
    (["a b"] : List String).length = (["a"] : List String).length ∧
    calculateF1 (fun s => s) ["a b"] ["a"] =
      .ok [("f1", MetricValue.num (mean
        (((((["a"] : List String).map (fun s => s)).map whitespaceTokenize).zip
            (((["a b"] : List String).map (fun s => s)).map whitespaceTokenize)).map
          (fun lp => computeF1SingleSpec lp.1 lp.2))))] :=
  ⟨rfl, f1_per_sample_and_mean.2 (fun s => s) ["a b"] ["a"] rfl
    (List.cons_ne_nil _ _)⟩

/-- C2: for equal-length non-empty prediction and label sequences, the
Exact Match score is the fraction of indices at which the normalized
prediction equals the normalized label, and it lies in `[0, 1]`. -/
theorem calculateEM_fraction (norm : String → String)
    (predictions labels : List String)
    (hlen : predictions.length = labels.length) (hne : predictions ≠ []) :
    calculateEM norm predictions labels =
      .ok [("exact_match", MetricValue.num
        (((((predictions.map norm).zip (labels.map norm)).countP
            (fun pl => pl.1 = pl.2) : ℕ) : ℚ) / (predictions.length : ℚ)))] ∧
    0 ≤ ((((predictions.map norm).zip (labels.map norm)).countP
            (fun pl => pl.1 = pl.2) : ℕ) : ℚ) / (predictions.length : ℚ) ∧
    ((((predictions.map norm).zip (labels.map norm)).countP
            (fun pl => pl.1 = pl.2) : ℕ) : ℚ) / (predictions.length : ℚ) ≤ 1 := by
  have hne0 : ¬predictions.length = 0 := fun h =>
    hne (List.length_eq_zero.1 h)
  have hzlen : ((predictions.map norm).zip (labels.map norm)).length =
      predictions.length := by
    simp [List.length_zip, hlen]
  have hP : (0 : ℚ) < predictions.length := by
    exact_mod_cast Nat.pos_of_ne_zero hne0
  refine ⟨?_, ?_, ?_⟩
  · rw [calculateEM, if_neg (fun h => h hlen), if_neg hne0]
    simp only [mean, sum_indicator_eq_countP, List.length_map, hzlen]
  · positivity
  · rw [div_le_one hP]
    exact_mod_cast hzlen ▸ List.countP_le_length _

/-- Witness for C2 at `predictions = ["x", "y"]`, `labels = ["x", "z"]`,
identity normalization. -/
theorem calculateEM_fraction_witness :
    (["x", "y"] : List String).length = (["x", "z"] : List String).length ∧
    calculateEM (fun s => s) ["x", "y"] ["x", "z"] =
      .ok [("exact_match", MetricValue.num
        ((((((["x", "y"] : List String).map (fun s => s)).zip
              ((["x", "z"] : List String).map (fun s => s))).countP
            (fun pl => pl.1 = pl.2) : ℕ) : ℚ) /
          ((["x", "y"] : List String).length : ℚ)))] :=
  ⟨rfl, (calculateEM_fraction (fun s => s) ["x", "y"] ["x", "z"] rfl
    (List.cons_ne_nil _ _)).1⟩

/-- C3: on a length mismatch between the extracted prediction and label
sequences, each of `_calculate_f1`, `_calculate_em` and `_calculate_sas`
fails with the length-mismatch `ValueError`, independently of the
normalizer and of the similarity model (so before any score
computation). -/
theorem metrics_length_mismatch (norm : String → String) (sm : SasModel)
    (predictions labels : List String)
    (h : predictions.length ≠ labels.length) :
    calculateF1 norm predictions labels = .error lengthMismatchMsg ∧
    calculateEM norm predictions labels = .error lengthMismatchMsg ∧
    calculateSAS norm sm predictions labels = .error lengthMismatchMsg := by
  refine ⟨?_, ?_, ?_⟩ <;>
    simp [calculateF1, calculateEM, calculateSAS, h]

/-- Witness for C3 at `predictions = ["a"]`, `labels = []`. -/
theorem metrics_length_mismatch_witness :
    (["a"] : List String).length ≠ ([] : List String).length ∧
    (calculateF1 (fun s => s) ["a"] [] = .error lengthMismatchMsg ∧
     calculateEM (fun s => s) ["a"] [] = .error lengthMismatchMsg ∧
     calculateSAS (fun s => s)
       ⟨true, fun _ => [], fun _ _ => 0, fun q => q⟩ ["a"] [] =
       .error lengthMismatchMsg) :=
  ⟨by decide, metrics_length_mismatch (fun s => s)
    ⟨true, fun _ => [], fun _ _ => 0, fun q => q⟩ ["a"] [] (by decide)⟩

/-- C4: with zero extracted samples, EM and F1 return the score `0.0`
without error, and SAS returns the aggregate `0.0` with the fixed
single-element per-sample list `[0.0]`. -/
theorem metrics_zero_samples (norm : String → String) (sm : SasModel) :
    calculateF1 norm [] [] = .ok [("f1", MetricValue.num 0)] ∧
    calculateEM norm [] [] = .ok [("exact_match", MetricValue.num 0)] ∧
    calculateSAS norm sm [] [] =
      .ok [("sas", MetricValue.num 0),
           ("scores", MetricValue.scoreList [0])] :=
  ⟨rfl, rfl, rfl⟩

/-- C6: `calculate_metrics` with `RECALL`, `MRR` or `MAP` returns a
`MetricsResult` whose single value is the `None` sentinel — never an
error and never a numeric score. -/
theorem stub_metrics_not_computed (norm : String → String) (sm : SasModel)
    (predictions labels : List String) :
    calculateMetrics .RECALL norm sm predictions labels =
      .ok [("recall", MetricValue.notComputed)] ∧
    calculateMetrics .MRR norm sm predictions labels =
      .ok [("mean_reciprocal_rank", MetricValue.notComputed)] ∧
    calculateMetrics .MAP norm sm predictions labels =
      .ok [("mean_average_precision", MetricValue.notComputed)] :=
  ⟨rfl, rfl, rfl⟩

/-- C10: the single-sample F1 computation always returns a value in
`[0, 1]`, and the mean F1 over any non-empty sample set also lies in
`[0, 1]`. -/
theorem f1_scores_in_unit_interval :
    (∀ label_toks pred_toks : List String,
      0 ≤ computeF1Single label_toks pred_toks ∧
        computeF1Single label_toks pred_toks ≤ 1) ∧
    (∀ pairs : List (List String × List String), pairs ≠ [] →
      0 ≤ mean (pairs.map fun lp => computeF1Single lp.1 lp.2) ∧
        mean (pairs.map fun lp => computeF1Single lp.1 lp.2) ≤ 1) := by
  refine ⟨computeF1Single_mem_unit, fun pairs hne => ⟨?_, ?_⟩⟩
  · refine mean_nonneg _ fun x hx => ?_
    obtain ⟨lp, _, rfl⟩ := List.mem_map.1 hx
    exact (computeF1Single_mem_unit lp.1 lp.2).1
  · refine mean_le_one _ (fun h => hne (List.map_eq_nil_iff.1 h)) fun x hx => ?_
    obtain ⟨lp, _, rfl⟩ := List.mem_map.1 hx
    exact (computeF1Single_mem_unit lp.1 lp.2).2

/-- Witness for C10 at the one-sample set `[(["a"], ["a", "b"])]`. -/
theorem f1_scores_in_unit_interval_witness :
    0 ≤ mean ([((["a"] : List String), (["a", "b"] : List String))].map
        fun lp => computeF1Single lp.1 lp.2) ∧
      mean ([((["a"] : List String), (["a", "b"] : List String))].map
        fun lp => computeF1Single lp.1 lp.2) ≤ 1 :=
  f1_scores_in_unit_interval.2 [(["a"], ["a", "b"])] (List.cons_ne_nil _ _)

/-- C5: `eval` raises the shape-mismatch error when
`len(inputs) != len(expected_outputs)`, independently of the runnable (so
before invoking it even once); otherwise it returns an
`EvaluationResult` whose outputs are the runnable applied to each input
in order, with `len(inputs) == len(outputs) == len(expected_outputs)`. -/
theorem eval_shape_and_order {α β γ : Type} (run : α → β) (inputs : List α)
    (expected_outputs : List γ) :
    (inputs.length ≠ expected_outputs.length →
      ∀ run' : α → β,
        eval run' inputs expected_outputs = .error shapeMismatchMsg) ∧
    (inputs.length = expected_outputs.length →
      eval run inputs expected_outputs =
        .ok ⟨inputs, inputs.map run, expected_outputs⟩ ∧
      inputs.length = (inputs.map run).length ∧
      (inputs.map run).length = expected_outputs.length) := by
  constructor
  · intro h run'
    rw [eval, if_pos h]
  · intro h
    refine ⟨?_, ?_, ?_⟩
    · rw [eval, if_neg (fun hne => hne h)]
    · simp
    · simp [h]

/-- Witness for C5: the mismatched shape `[1]` vs `[]` errors, and the
matched shape `[1, 2]` vs `[true, false]` collects both outputs in
order. -/
theorem eval_shape_and_order_witness :
    (([1] : List ℕ).length ≠ ([] : List Bool).length ∧
      eval (fun n : ℕ => n + 1) [1] ([] : List Bool) =
        .error shapeMismatchMsg) ∧
    (([1, 2] : List ℕ).length = ([true, false] : List Bool).length ∧
      (eval (fun n : ℕ => n + 1) [1, 2] [true, false] =
        .ok ⟨[1, 2], [1, 2].map (fun n : ℕ => n + 1), [true, false]⟩ ∧
      ([1, 2] : List ℕ).length = ([1, 2].map (fun n : ℕ => n + 1)).length ∧
      ([1, 2].map (fun n : ℕ => n + 1)).length =
        ([true, false] : List Bool).length)) :=
  ⟨⟨by decide, (eval_shape_and_order (fun n : ℕ => n + 1) [1]
      ([] : List Bool)).1 (by decide) (fun n : ℕ => n + 1)⟩,
   ⟨rfl, (eval_shape_and_order (fun n : ℕ => n + 1) [1, 2]
      [true, false]).2 rfl⟩⟩

/-- C7: in the SAS cross-encoder path, if any raw pair score exceeds 1
then the sigmoid is applied to every score, and if no score exceeds 1
then every score is left unchanged; `_calculate_sas` in cross-encoder
mode returns exactly the so-normalized score list and its mean. -/
theorem sas_cross_encoder_score_normalization :
    (∀ (expit : ℚ → ℚ) (raw : List ℚ),
      ((∃ s ∈ raw, 1 < s) →
        normalizeCrossEncoderScores expit raw = raw.map expit) ∧
      ((∀ s ∈ raw, s ≤ 1) →
        normalizeCrossEncoderScores expit raw = raw)) ∧
    (∀ (norm : String → String) (sm : SasModel)
        (predictions labels : List String),
      sm.crossEncoder = true →
      predictions.length = labels.length → predictions ≠ [] →
      calculateSAS norm sm predictions labels =
        .ok [("sas", MetricValue.num (mean (normalizeCrossEncoderScores
                sm.expit (sm.scorePairs
                  ((predictions.map norm).zip (labels.map norm)))))),
             ("scores", MetricValue.scoreList (normalizeCrossEncoderScores
                sm.expit (sm.scorePairs
                  ((predictions.map norm).zip (labels.map norm)))))]) := by
  constructor
  · intro expit raw
    constructor
    · rintro ⟨s, hs, hlt⟩
      rw [normalizeCrossEncoderScores, if_pos]
      exact List.any_eq_true.2 ⟨s, hs, by simpa using hlt⟩
    · intro h
      rw [normalizeCrossEncoderScores, if_neg]
      simp only [List.any_eq_true, decide_eq_true_eq]
      push_neg
      exact h
  · intro norm sm predictions labels hcross hlen hne
    have hne0 : ¬predictions.length = 0 := fun h =>
      hne (List.length_eq_zero.1 h)
    rw [calculateSAS, if_neg (fun h => h hlen), if_neg hne0]
    simp [hcross]

/-- Witness for C7: `[2, 1/2]` has an outlier so the whole list is
squashed; `[0]` has none so it is unchanged; a concrete cross-encoder
model on one sample returns the normalized scores. -/
theorem sas_cross_encoder_score_normalization_witness :
    normalizeCrossEncoderScores (fun q => q / 2) [2, 1/2] =
      ([2, 1/2] : List ℚ).map (fun q => q / 2) ∧
    normalizeCrossEncoderScores (fun q => q / 2) [0] = [0] ∧
    calculateSAS (fun s => s)
      ⟨true, fun _ => [2], fun _ _ => 0, fun q => q / 2⟩ ["a"] ["b"] =
      .ok [("sas", MetricValue.num (mean (normalizeCrossEncoderScores
              (fun q => q / 2) ((fun _ : List (String × String) => [(2 : ℚ)])
                (((["a"] : List String).map (fun s => s)).zip
                  ((["b"] : List String).map (fun s => s))))))),
           ("scores", MetricValue.scoreList (normalizeCrossEncoderScores
              (fun q => q / 2) ((fun _ : List (String × String) => [(2 : ℚ)])
                (((["a"] : List String).map (fun s => s)).zip
                  ((["b"] : List String).map (fun s => s))))))] :=
  ⟨(sas_cross_encoder_score_normalization.1 (fun q => q / 2) [2, 1/2]).1
      ⟨2, by simp, by norm_num⟩,
   (sas_cross_encoder_score_normalization.1 (fun q => q / 2) [0]).2
      (by intro s hs; rw [List.mem_singleton] at hs; rw [hs]; norm_num),
   sas_cross_encoder_score_normalization.2 (fun s => s)
      ⟨true, fun _ => [2], fun _ _ => 0, fun q => q / 2⟩ ["a"] ["b"]
      rfl rfl (List.cons_ne_nil _ _)⟩

theorem runLoop_eq_filterMap {σ δ : Type}
    (readSource : σ → Except String (ByteStream δ))
    (parse : δ → Except String DocxFile) (pairs : List (σ × MetaDict)) :
    runLoop readSource parse pairs =
      pairs.filterMap (convertSource readSource parse) := by
  induction pairs with
  | nil => rfl
  | cons sm rest ih =>
    obtain ⟨source, metadata⟩ := sm
    rw [List.filterMap_cons]
    cases h1 : readSource source with
    | error e => simp [runLoop, convertSource, h1, ih]
    | ok bytestream =>
      cases h2 : parse bytestream.data with
      | error e => simp [runLoop, convertSource, h1, h2, ih]
      | ok file => simp [runLoop, convertSource, h1, h2, ih]

theorem length_filterMap_eq_countP {X Y : Type} (f : X → Option Y)
    (l : List X) :
    (l.filterMap f).length = l.countP (fun x => (f x).isSome) := by
  induction l with
  | nil => rfl
  | cons a t ih =>
    cases h : f a <;> simp [List.filterMap_cons, List.countP_cons, h, ih]

/-- C8: `DocxToDocument.run` skips a source on a read or a parse failure
and keeps going: whenever the metadata argument normalizes, it returns
(never fails) the list holding exactly one `Document` per source whose
read and parse both succeed. -/
theorem docx_run_skips_failed_sources {σ δ : Type}
    (readSource : σ → Except String (ByteStream δ))
    (parse : δ → Except String DocxFile) (sources : List σ)
    (meta : Option (MetaDict ⊕ List MetaDict)) (meta_list : List MetaDict)
    (h : normalizeMetadata meta sources.length = .ok meta_list) :
    DocxToDocument.run readSource parse sources meta =
      .ok ((sources.zip meta_list).filterMap
        (convertSource readSource parse)) ∧
    ((sources.zip meta_list).filterMap
        (convertSource readSource parse)).length =
      (sources.zip meta_list).countP
        (fun sm => (convertSource readSource parse sm).isSome) := by
  constructor
  · have hrun : DocxToDocument.run readSource parse sources meta =
        .ok (runLoop readSource parse (sources.zip meta_list)) := by
      unfold DocxToDocument.run
      rw [h]
    rw [hrun, runLoop_eq_filterMap]
  · exact length_filterMap_eq_countP _ _

/-- Witness for C8: three sources of which the first fails to read and
the third fails to parse; the run succeeds and keeps only the second. -/
theorem docx_run_skips_failed_sources_witness :
    normalizeMetadata none ([0, 1, 2] : List ℕ).length =
      .ok [[], [], []] ∧
    (DocxToDocument.run
        (fun n : ℕ => if n = 0 then .error "unreadable"
          else .ok (⟨n, []⟩ : ByteStream ℕ))
        (fun d : ℕ => if d = 2 then .error "unparseable"
          else .ok ⟨["text"], fun _ => none⟩)
        [0, 1, 2] none =
      .ok ((([0, 1, 2] : List ℕ).zip [[], [], []]).filterMap
        (convertSource
          (fun n : ℕ => if n = 0 then .error "unreadable"
            else .ok (⟨n, []⟩ : ByteStream ℕ))
          (fun d : ℕ => if d = 2 then .error "unparseable"
            else .ok ⟨["text"], fun _ => none⟩))) ∧
    ((([0, 1, 2] : List ℕ).zip [[], [], []]).filterMap
        (convertSource
          (fun n : ℕ => if n = 0 then .error "unreadable"
            else .ok (⟨n, []⟩ : ByteStream ℕ))
          (fun d : ℕ => if d = 2 then .error "unparseable"
            else .ok ⟨["text"], fun _ => none⟩))).length =
      (([0, 1, 2] : List ℕ).zip [[], [], []]).countP
        (fun sm => ((convertSource
          (fun n : ℕ => if n = 0 then .error "unreadable"
            else .ok (⟨n, []⟩ : ByteStream ℕ))
          (fun d : ℕ => if d = 2 then .error "unparseable"
            else .ok ⟨["text"], fun _ => none⟩)) sm).isSome)) :=
  ⟨rfl, docx_run_skips_failed_sources
    (fun n : ℕ => if n = 0 then .error "unreadable"
      else .ok (⟨n, []⟩ : ByteStream ℕ))
    (fun d : ℕ => if d = 2 then .error "unparseable"
      else .ok ⟨["text"], fun _ => none⟩)
    [0, 1, 2] none [[], [], []] rfl⟩

theorem lookupKey_append (k : String) (a b : MetaDict) :
    lookupKey k (a ++ b) =
      match lookupKey k a with
      | some v => some v
      | none => lookupKey k b := by
  induction a with
  | nil => rfl
  | cons e t ih =>
    obtain ⟨k', v⟩ := e
    by_cases h : k' = k <;> simp [lookupKey, h, ih]

theorem lookupKey_filterMap_metaEntry (cp : String → Option PropValue)
    (ps : List String) :
    (∀ p ∈ ps, ∀ q ∈ ps, ("docx_" ++ p : String) = "docx_" ++ q → p = q) →
    ∀ (k : String) (v : PropValue),
    (lookupKey k (ps.filterMap (metaEntry cp)) = some v ↔
      ∃ p, p ∈ ps ∧ k = "docx_" ++ p ∧ cp p = some v ∧
        v.isEmptyStr = false) := by
  induction ps with
  | nil =>
    intro _ k v
    simp [lookupKey]
  | cons a t ih =>
    intro hinj k v
    have hinj' : ∀ p ∈ t, ∀ q ∈ t,
        ("docx_" ++ p : String) = "docx_" ++ q → p = q :=
      fun p hp q hq =>
        hinj p (List.mem_cons_of_mem _ hp) q (List.mem_cons_of_mem _ hq)
    rw [List.filterMap_cons]
    cases ha : metaEntry cp a with
    | none =>
      rw [ih hinj' k v]
      constructor
      · rintro ⟨p, hp, h1, h2, h3⟩
        exact ⟨p, List.mem_cons_of_mem _ hp, h1, h2, h3⟩
      · rintro ⟨p, hp, h1, h2, h3⟩
        rcases List.mem_cons.1 hp with rfl | hp'
        · simp [metaEntry, h2, h3] at ha
        · exact ⟨p, hp', h1, h2, h3⟩
    | some e =>
      obtain ⟨va, hcpa, hva, rfl⟩ :
          ∃ va, cp a = some va ∧ va.isEmptyStr = false ∧
            e = ("docx_" ++ a, va) := by
        cases hcp : cp a with
        | none => simp [metaEntry, hcp] at ha
        | some w =>
          by_cases hw : w.isEmptyStr
          · simp [metaEntry, hcp, hw] at ha
          · refine ⟨w, rfl, by simpa using hw, ?_⟩
            simp [metaEntry, hcp, hw] at ha
            exact ha.symm
      by_cases hk : ("docx_" ++ a : String) = k
      · simp only [lookupKey, if_pos hk]
        constructor
        · intro hsv
          have hv : va = v := Option.some.inj hsv
          subst hv
          exact ⟨a, List.mem_cons_self _ _, hk.symm, hcpa, hva⟩
        · rintro ⟨p, hp, h1, h2, h3⟩
          have hpa : p = a :=
            hinj p hp a (List.mem_cons_self _ _) (h1.symm.trans hk.symm)
          subst hpa
          rw [hcpa] at h2
          exact h2
      · simp only [lookupKey, if_neg hk]
        rw [ih hinj' k v]
        constructor
        · rintro ⟨p, hp, h1, h2, h3⟩
          exact ⟨p, List.mem_cons_of_mem _ hp, h1, h2, h3⟩
        · rintro ⟨p, hp, h1, h2, h3⟩
          rcases List.mem_cons.1 hp with rfl | hp'
          · exact absurd h1.symm hk
          · exact ⟨p, hp', h1, h2, h3⟩

/-- C9: a converted Document's metadata resolves a key by caller-supplied
metadata first, then the extracted docx core properties, then the
byte-stream metadata (later merge sources override earlier ones), and
the docx layer holds exactly the fixed fifteen properties whose value is
neither `None` nor the empty string, each under its `docx_`-prefixed
key. -/
theorem docx_document_meta_merge {δ : Type} (bytestream : ByteStream δ)
    (file : DocxFile) (metadata : MetaDict) (k : String) (v : PropValue) :
    (lookupKey k (mkDocument bytestream file metadata).meta =
      match lookupKey k metadata with
      | some w => some w
      | none =>
        match lookupKey k (getDocxMetadata file.coreProperties) with
        | some w => some w
        | none => lookupKey k bytestream.meta) ∧
    (lookupKey k (getDocxMetadata file.coreProperties) = some v ↔
      ∃ p, p ∈ docxProps ∧ k = "docx_" ++ p ∧
        file.coreProperties p = some v ∧ v.isEmptyStr = false) := by
  constructor
  · show lookupKey k (metadata ++
        (getDocxMetadata file.coreProperties ++ bytestream.meta)) = _
    rw [lookupKey_append, lookupKey_append]
  · exact lookupKey_filterMap_metaEntry file.coreProperties docxProps
      (by decide) k v

end Haystack
